import Mathlib

/-!
Verification of the Keystone timer driver (src/timer.c) against its
natural-language specification.

The driver is straight-line C over a memory-mapped register block.  We embed
it shallowly: the register map becomes a record of natural numbers (each
field a 32-bit value), each driver operation becomes a Lean function that
returns its C return value together with the ordered list of register-write
and barrier events it issues, and a fold applies such an event list to a
register state.  Machine arithmetic is modelled on Nat with explicit
`% 2^32` / `% 2^64` at the points where the C types truncate.
-/

namespace Keystone

/-- Mask of the two enable-mode bits of the timer control register,
`0xC0` (src/timer.c line 30). -/
def TCR_ENAMODE_MASK : Nat := 0xC0

/-- Enable-mode bit pattern for one-shot mode, `0x40` (src/timer.c line 31). -/
def TCR_ENAMODE_ONESHOT_MASK : Nat := 0x40

/-- Enable-mode bit pattern for periodic mode, `0x80` (src/timer.c line 32). -/
def TCR_ENAMODE_PERIODIC_MASK : Nat := 0x80

/-- Un-reset value of the timer global control register, `0x03`
(src/timer.c line 34). -/
def TGCR_TIM_UNRESET_MASK : Nat := 0x03

/-- Interrupt-enable bit of the interrupt control/status register, `0x01`
(src/timer.c line 35). -/
def INTCTLSTAT_ENINT_MASK : Nat := 0x01

/-- Acknowledge pattern for the interrupt control/status register, `0x03`
(src/timer.c line 36). -/
def INTCTLSTAT_ACK_MASK : Nat := 0x03

/-- Fixed platform clock frequency, `204800000` ticks per second
(src/timer.c line 38). -/
def TICKS_PER_SECOND : Nat := 204800000

/-- Modulus of the C type `uint32_t`. -/
def U32 : Nat := 2 ^ 32

/-- Modulus of the C type `uint64_t`. -/
def U64 : Nat := 2 ^ 64

/-- Bitwise complement at 32 bits, as produced by C `~` on a `uint32_t`
mask. -/
def not32 (m : Nat) : Nat := (U32 - 1) ^^^ m

/-- The `errno` value `EINVAL` returned by `keystone_set_timeo`; the numeric
value comes from the C library headers (outside src/), the claims only rely
on it being distinct from the success value `0`. -/
def EINVAL : Int := 22

/-- Tick conversion macro `TIMER_INTERVAL_TICKS(ns)` (src/timer.c line 39):
`(uint32_t)(1ULL * (ns) * TICKS_PER_SECOND / 1000 / 1000 / 1000)`.
The multiplication is carried out in `uint64_t` (wrap at `2^64`), the three
divisions are exact `uint64_t` divisions, and the final cast truncates to
32 bits.  `ns` is the `uint64_t` argument of `keystone_set_timeo`. -/
def TIMER_INTERVAL_TICKS (ns : Nat) : Nat :=
  ns * TICKS_PER_SECOND % U64 / 1000 / 1000 / 1000 % U32

/-- The registers of `struct keystone_timer_map` (src/timer.c lines 45-62);
padding bytes carry no state and are omitted. -/
inductive Reg where
  | emumgt_clkspd
  | cntlo
  | cnthi
  | prdlo
  | prdhi
  | tcr
  | tgcr
  | wdtcr
  | rello
  | relhi
  | caplo
  | caphi
  | intctlstat
deriving DecidableEq, Repr

/-- One hardware-visible action of the driver: a store to a register of the
map, or a `dmb()` memory barrier (src/timer.c line 42). -/
inductive Ev where
  | write (r : Reg) (v : Nat)
  | barrier
deriving DecidableEq, Repr

/-- The state of the register map: the value held by each 32-bit field. -/
structure TimerMap where
  emumgt_clkspd : Nat
  cntlo : Nat
  cnthi : Nat
  prdlo : Nat
  prdhi : Nat
  tcr : Nat
  tgcr : Nat
  wdtcr : Nat
  rello : Nat
  relhi : Nat
  caplo : Nat
  caphi : Nat
  intctlstat : Nat
deriving DecidableEq, Repr

/-- Store a value into one register field. -/
def setReg (s : TimerMap) (r : Reg) (v : Nat) : TimerMap :=
  match r with
  | Reg.emumgt_clkspd => { s with emumgt_clkspd := v }
  | Reg.cntlo => { s with cntlo := v }
  | Reg.cnthi => { s with cnthi := v }
  | Reg.prdlo => { s with prdlo := v }
  | Reg.prdhi => { s with prdhi := v }
  | Reg.tcr => { s with tcr := v }
  | Reg.tgcr => { s with tgcr := v }
  | Reg.wdtcr => { s with wdtcr := v }
  | Reg.rello => { s with rello := v }
  | Reg.relhi => { s with relhi := v }
  | Reg.caplo => { s with caplo := v }
  | Reg.caphi => { s with caphi := v }
  | Reg.intctlstat => { s with intctlstat := v }

/-- Apply one event to the register state; a barrier changes no register. -/
def applyEv (s : TimerMap) : Ev → TimerMap
  | Ev.write r v => setReg s r v
  | Ev.barrier => s

/-- Apply a whole event trace, in order, to the register state. -/
def applyTrace (s : TimerMap) (t : List Ev) : TimerMap :=
  t.foldl applyEv s

/-- Helper for `writeIndices`: positions of the writes to `r`, counting the
head of the list as position `i`. -/
def writeIndicesFrom (i : Nat) : List Ev → Reg → List Nat
  | [], _ => []
  | Ev.write s _ :: t, r =>
      if s = r then i :: writeIndicesFrom (i + 1) t r
      else writeIndicesFrom (i + 1) t r
  | Ev.barrier :: t, r => writeIndicesFrom (i + 1) t r

/-- The positions (0-based) in trace `t` of the writes to register `r`. -/
def writeIndices (t : List Ev) (r : Reg) : List Nat :=
  writeIndicesFrom 0 t r

/-- Reset operation `keystone_timer_reset` (src/timer.c lines 69-88): the
ordered sequence of hardware accesses it performs.  It reads no register,
so the trace does not depend on the prior state. -/
def keystone_timer_reset : List Ev :=
  [Ev.write Reg.tcr 0,
   Ev.barrier,
   Ev.write Reg.tgcr 0,
   Ev.write Reg.tgcr TGCR_TIM_UNRESET_MASK,
   Ev.write Reg.cntlo 0,
   Ev.write Reg.cnthi 0,
   Ev.write Reg.intctlstat INTCTLSTAT_ENINT_MASK]

/-- Stop operation `keystone_timer_stop` (src/timer.c lines 90-98):
`kt->hw->tcr &= ~(TCR_ENAMODE_MASK); return 0;`. -/
def keystone_timer_stop (hw : TimerMap) : Int × TimerMap :=
  (0, { hw with tcr := hw.tcr &&& not32 TCR_ENAMODE_MASK })

/-- Start operation `keystone_timer_start` (src/timer.c lines 100-108):
`kt->hw->tcr |= TCR_ENAMODE_MASK; return 0;`. -/
def keystone_timer_start (hw : TimerMap) : Int × TimerMap :=
  (0, { hw with tcr := hw.tcr ||| TCR_ENAMODE_MASK })

/-- Arming operation `keystone_set_timeo` (src/timer.c lines 110-147).  Takes the current
register state (it reads `tcr`), the nanosecond argument and the
`tcrFlags` mode argument; returns the C return value and the ordered trace
of hardware accesses issued. -/
def keystone_set_timeo (hw : TimerMap) (ns : Nat) (tcrFlags : Nat) :
    Int × List Ev :=
  let ticks := TIMER_INTERVAL_TICKS ns
  if ticks < 2 then
    (EINVAL, [])
  else
    let tcr := hw.tcr
    let off := tcr &&& not32 TCR_ENAMODE_MASK
    let tcr2 := tcr ||| tcrFlags
    (0,
     [Ev.write Reg.tcr off,
      Ev.barrier,
      Ev.write Reg.cntlo 0,
      Ev.write Reg.cnthi 0,
      Ev.write Reg.prdlo (ticks &&& 0xffffffff),
      Ev.write Reg.prdhi (ticks >>> 32),
      Ev.write Reg.intctlstat INTCTLSTAT_ACK_MASK,
      Ev.barrier,
      Ev.write Reg.tcr tcr2])

/-- Wrapper `keystone_periodic` (src/timer.c lines 149-153). -/
def keystone_periodic (hw : TimerMap) (ns : Nat) : Int × List Ev :=
  keystone_set_timeo hw ns TCR_ENAMODE_PERIODIC_MASK

/-- Wrapper `keystone_oneshot_relative` (src/timer.c lines 155-159). -/
def keystone_oneshot_relative (hw : TimerMap) (ns : Nat) : Int × List Ev :=
  keystone_set_timeo hw ns TCR_ENAMODE_ONESHOT_MASK

/-- Counter read `keystone_get_time` (src/timer.c lines 161-167): returns
`cntlo`. -/
def keystone_get_time (hw : TimerMap) : Nat :=
  hw.cntlo

/-- Interrupt acknowledge `keystone_handle_irq` (src/timer.c lines 169-174):
stores the acknowledge
mask to `intctlstat`; the `irq` argument is unused in the body. -/
def keystone_handle_irq (hw : TimerMap) (irq : Nat) : List Ev :=
  [Ev.write Reg.intctlstat INTCTLSTAT_ACK_MASK]

/-- The per-instance state `struct keystone_timer` (src/timer.c lines 64-67):
a register-map reference (modelled as the numeric base address the caller
mapped) and the bound interrupt line. -/
structure KTimer where
  hw : Nat
  irq : Nat
deriving DecidableEq, Repr

/-- Lookup `keystone_get_nth_irq` (src/timer.c lines 176-182): returns
`kt->irq`;
the argument `n` does not occur in the body. -/
def keystone_get_nth_irq (kt : KTimer) (n : Nat) : Nat :=
  kt.irq

/-- The capability descriptor fields set by `ps_get_timer`
(src/timer.c lines 199-205). -/
structure Props where
  upcounter : Bool
  timeouts : Bool
  relative_timeouts : Bool
  periodic_timeouts : Bool
  absolute_timeouts : Bool
  bit_width : Nat
  irqs : Nat
deriving DecidableEq, Repr

/-- A populated pool entry: the capability descriptor together with the
`keystone_timer_t` data the function table closes over.  The function-table
slots themselves are the static functions modelled above and carry no
per-instance state. -/
structure PSTimer where
  props : Props
  kt : KTimer
deriving DecidableEq, Repr

/-- Configuration `timer_config_t`: the caller-supplied mapped base address
and interrupt
line (src/timer.c lines 217-218 read `config->vaddr` and `config->irq`). -/
structure Config where
  vaddr : Nat
  irq : Nat
deriving DecidableEq, Repr

/-- The instance pool `timers[]`/`kts[]` (src/timer.c lines 184-185), viewed
as the contents of each slot. -/
def Pool : Type := Nat → Option PSTimer

/-- Factory `ps_get_timer` (src/timer.c lines 187-222).  `NTIMERS` comes from the
platform header `platsupport/plat/timer.h`, which is outside src/, so it is
a parameter here.  Returns the handle (or `none`), the updated pool, and
the trace of hardware accesses performed before returning. -/
def ps_get_timer (NTIMERS : Nat) (pool : Pool) (id : Nat) (cfg : Config) :
    Option PSTimer × Pool × List Ev :=
  if id ≥ NTIMERS then
    (none, pool, [])
  else
    let kt : KTimer := { hw := cfg.vaddr, irq := cfg.irq }
    let t : PSTimer :=
      { props :=
          { upcounter := false
            timeouts := true
            relative_timeouts := true
            periodic_timeouts := true
            absolute_timeouts := false
            bit_width := 32
            irqs := 1 }
        kt := kt }
    (some t, fun i => if i = id then some t else pool i, keystone_timer_reset)

/-- The specification's exact tick conversion, stated in its own words
("`ticks = nanoseconds * TICKS_PER_SECOND / 1_000_000_000`" computed by a
wide exact reference): for comparison with `TIMER_INTERVAL_TICKS`, which is
translated from the code. -/
def ticksSpec (ns : Nat) : Nat :=
  ns * TICKS_PER_SECOND / 1000000000

/-- Modelled from the spec: the read-back behaviour of the hardware
interrupt control/status register is device behaviour, not code under src/.
Per the spec ("Acknowledge: write that clears a pending interrupt-status
condition"), the acknowledge bits are write-one-to-clear: bits of the stored
value lying in `INTCTLSTAT_ACK_MASK` clear the corresponding pending status
bits on read-back. -/
def intctlstatReadback (old written : Nat) : Nat :=
  old &&& not32 (written &&& INTCTLSTAT_ACK_MASK)

/-- Modelled from the spec: the pending status bits of `intctlstat` lie
within the acknowledge mask (the spec describes the field as
"enable-interrupt bit + acknowledge bits"). -/
def pendingBits (v : Nat) : Nat :=
  v &&& INTCTLSTAT_ACK_MASK

/-- A register map with a given `tcr` value and all other fields zero; used
as a concrete state in witnesses and counterexamples. -/
def mapWithTcr (t : Nat) : TimerMap :=
  { emumgt_clkspd := 0, cntlo := 0, cnthi := 0, prdlo := 0, prdhi := 0
    tcr := t, tgcr := 0, wdtcr := 0, rello := 0, relhi := 0, caplo := 0
    caphi := 0, intctlstat := 0 }

/-- C1 (counterexample): at `ns = 21000000000` (21 seconds) the tick count
computed by the code differs from the exact wide-reference value
`ns * TICKS_PER_SECOND / 1000000000`: the exact quotient is `4300800000`,
which does not fit in 32 bits, and the `uint32_t` cast truncates it to
`5832704`.  So the claim that the computed tick count always equals the
exact reference, with no truncation, is false. -/
theorem c1_ticks_counterexample :
    TIMER_INTERVAL_TICKS 21000000000 ≠ ticksSpec 21000000000 := by
  decide

/-- C1 (amended): the tick count computed by `set_timeout` equals the exact
wide-reference value `ns * TICKS_PER_SECOND / 1000000000` for every `ns`
such that the product `ns * TICKS_PER_SECOND` fits in the 64-bit
intermediate (no wrap at `2^64`) and the exact quotient fits in 32 bits (so
the final `uint32_t` cast does not truncate); outside that range the code
wraps the product modulo `2^64` and truncates the quotient modulo `2^32`. -/
theorem c1_ticks_exact (ns : Nat)
    (h1 : ns * TICKS_PER_SECOND < U64)
    (h2 : ns * TICKS_PER_SECOND / 1000000000 < U32) :
    TIMER_INTERVAL_TICKS ns = ticksSpec ns := by
  unfold TIMER_INTERVAL_TICKS ticksSpec
  rw [Nat.mod_eq_of_lt h1, Nat.div_div_eq_div_mul, Nat.div_div_eq_div_mul]
  norm_num
  exact Nat.mod_eq_of_lt h2

/-- Witness for `c1_ticks_exact` at `ns = 1000000000` (one second):
both side conditions hold and the computed tick count equals the exact
reference there. -/
theorem c1_ticks_exact_witness :
    1000000000 * TICKS_PER_SECOND < U64 ∧
    1000000000 * TICKS_PER_SECOND / 1000000000 < U32 ∧
    TIMER_INTERVAL_TICKS 1000000000 = ticksSpec 1000000000 :=
  ⟨by decide, by decide, c1_ticks_exact 1000000000 (by decide) (by decide)⟩

/-- C2 (code bug, evaluated at the failing input): with the periodic enable
bit (`0x80`) already set in `tcr`, arming one-shot (`tcrFlags = 0x40`,
`ns = 1000000` so `ticks = 204800 ≥ 2`) issues a final control write of
`0xC0`: the code ORs the requested mode into the prior `tcr` value without
first clearing the enable-mode bits, so the periodic enable bit is still
set in the final control write, contrary to the claim. -/
theorem c2_mode_bits_not_cleared :
    ((keystone_set_timeo (mapWithTcr TCR_ENAMODE_PERIODIC_MASK) 1000000
        TCR_ENAMODE_ONESHOT_MASK).2).getLast? =
      some (Ev.write Reg.tcr 0xC0) ∧
    0xC0 &&& TCR_ENAMODE_PERIODIC_MASK ≠ 0 := by
  decide

/-- C3: whenever the converted tick count is below 2, `keystone_set_timeo`
(and hence `keystone_periodic` and `keystone_oneshot_relative`) returns
`EINVAL` with an empty hardware trace, and applying that trace leaves every
register-map field unchanged. -/
theorem c3_small_ticks_rejected (hw : TimerMap) (ns flags : Nat)
    (h : TIMER_INTERVAL_TICKS ns < 2) :
    keystone_set_timeo hw ns flags = (EINVAL, []) ∧
    keystone_periodic hw ns = (EINVAL, []) ∧
    keystone_oneshot_relative hw ns = (EINVAL, []) ∧
    applyTrace hw (keystone_set_timeo hw ns flags).2 = hw := by
  unfold keystone_periodic keystone_oneshot_relative
  simp [keystone_set_timeo, if_pos h, applyTrace]

/-- Witness for `c3_small_ticks_rejected` at `ns = 9` (which converts to
1 tick): the call fails with `EINVAL` and issues no write. -/
theorem c3_small_ticks_rejected_witness :
    TIMER_INTERVAL_TICKS 9 < 2 ∧
    keystone_set_timeo (mapWithTcr 0) 9 TCR_ENAMODE_ONESHOT_MASK =
      (EINVAL, []) :=
  ⟨by decide,
   (c3_small_ticks_rejected (mapWithTcr 0) 9 TCR_ENAMODE_ONESHOT_MASK
      (by decide)).1⟩

/-- C4: every successful `keystone_set_timeo` call issues exactly the write
sequence: control register to a disabled value (position 0, enable-mode
bits cleared), then counter low/high (positions 2, 3), then period low/high
(positions 4, 5), then the acknowledge-clear write to the interrupt
control/status register (position 6), and the final enabling control write
last (position 8); so no period write precedes the disabling control write
and the final control write follows all period writes and the
acknowledge-clear. -/
theorem c4_write_ordering (hw : TimerMap) (ns flags : Nat)
    (h : 2 ≤ TIMER_INTERVAL_TICKS ns) :
    (keystone_set_timeo hw ns flags).1 = 0 ∧
    writeIndices (keystone_set_timeo hw ns flags).2 Reg.tcr = [0, 8] ∧
    writeIndices (keystone_set_timeo hw ns flags).2 Reg.cntlo = [2] ∧
    writeIndices (keystone_set_timeo hw ns flags).2 Reg.cnthi = [3] ∧
    writeIndices (keystone_set_timeo hw ns flags).2 Reg.prdlo = [4] ∧
    writeIndices (keystone_set_timeo hw ns flags).2 Reg.prdhi = [5] ∧
    writeIndices (keystone_set_timeo hw ns flags).2 Reg.intctlstat = [6] ∧
    (keystone_set_timeo hw ns flags).2[0]? =
      some (Ev.write Reg.tcr (hw.tcr &&& not32 TCR_ENAMODE_MASK)) ∧
    hw.tcr &&& not32 TCR_ENAMODE_MASK &&& TCR_ENAMODE_MASK = 0 ∧
    (keystone_set_timeo hw ns flags).2[6]? =
      some (Ev.write Reg.intctlstat INTCTLSTAT_ACK_MASK) ∧
    (keystone_set_timeo hw ns flags).2[8]? =
      some (Ev.write Reg.tcr (hw.tcr ||| flags)) := by
  have hn : ¬ TIMER_INTERVAL_TICKS ns < 2 := Nat.not_lt.mpr h
  have hdis : hw.tcr &&& not32 TCR_ENAMODE_MASK &&& TCR_ENAMODE_MASK = 0 := by
    rw [Nat.and_assoc]
    have h0 : not32 TCR_ENAMODE_MASK &&& TCR_ENAMODE_MASK = 0 := by decide
    rw [h0, Nat.and_zero]
  refine ⟨?_, ?_, ?_, ?_, ?_, ?_, ?_, ?_, hdis, ?_, ?_⟩ <;>
    simp [keystone_set_timeo, hn, writeIndices, writeIndicesFrom]

/-- Witness for `c4_write_ordering` at `ns = 10` (2 ticks): the two control
writes sit at positions 0 and 8 of the issued trace. -/
theorem c4_write_ordering_witness :
    2 ≤ TIMER_INTERVAL_TICKS 10 ∧
    writeIndices
      (keystone_set_timeo (mapWithTcr 0) 10 TCR_ENAMODE_ONESHOT_MASK).2
      Reg.tcr = [0, 8] :=
  ⟨by decide,
   (c4_write_ordering (mapWithTcr 0) 10 TCR_ENAMODE_ONESHOT_MASK
      (by decide)).2.1⟩

/-- C5: `keystone_timer_stop` and `keystone_timer_start` are idempotent on
the whole register map (a second call produces exactly the state of the
first, so the enable-mode bits and all other registers agree), and both
always return 0 (no error path). -/
theorem c5_start_stop_idempotent (hw : TimerMap) :
    keystone_timer_stop (keystone_timer_stop hw).2 = keystone_timer_stop hw ∧
    keystone_timer_start (keystone_timer_start hw).2 =
      keystone_timer_start hw ∧
    (keystone_timer_stop hw).1 = 0 ∧
    (keystone_timer_start hw).1 = 0 := by
  refine ⟨?_, ?_, rfl, rfl⟩ <;>
    simp [keystone_timer_stop, keystone_timer_start, Nat.and_assoc,
      Nat.or_assoc, Nat.and_self, Nat.or_self]

/-- C6: for every out-of-range id (`id ≥ NTIMERS`) and every configuration,
`ps_get_timer` returns `none`, leaves the instance pool untouched, and
issues no hardware access at all. -/
theorem c6_out_of_range_id (NTIMERS : Nat) (pool : Pool) (id : Nat)
    (cfg : Config) (h : NTIMERS ≤ id) :
    ps_get_timer NTIMERS pool id cfg = (none, pool, []) := by
  simp [ps_get_timer, h]

/-- Witness for `c6_out_of_range_id` with `NTIMERS = 1`, `id = 1` and an
empty pool. -/
theorem c6_out_of_range_id_witness :
    (1 : Nat) ≤ 1 ∧
    ps_get_timer 1 (fun _ => none) 1 ⟨0, 0⟩ = (none, fun _ => none, []) :=
  ⟨by decide, c6_out_of_range_id 1 (fun _ => none) 1 ⟨0, 0⟩ (by decide)⟩

/-- C7: the reset trace is, in order: control register to the fully-disabled
value 0, barrier, global control to 0, global control to the un-reset
value, counter low and high to 0, then the interrupt-enable bit written to
the interrupt control/status register; applying it leaves the register map
in the corresponding state; and `ps_get_timer` issues exactly this trace,
and returns a handle, for every in-range id. -/
theorem c7_reset_sequence (NTIMERS : Nat) (pool : Pool) (id : Nat)
    (cfg : Config) (h : id < NTIMERS) :
    keystone_timer_reset =
      [Ev.write Reg.tcr 0,
       Ev.barrier,
       Ev.write Reg.tgcr 0,
       Ev.write Reg.tgcr TGCR_TIM_UNRESET_MASK,
       Ev.write Reg.cntlo 0,
       Ev.write Reg.cnthi 0,
       Ev.write Reg.intctlstat INTCTLSTAT_ENINT_MASK] ∧
    (∀ hw, applyTrace hw keystone_timer_reset =
      { hw with tcr := 0, tgcr := TGCR_TIM_UNRESET_MASK, cntlo := 0,
                cnthi := 0, intctlstat := INTCTLSTAT_ENINT_MASK }) ∧
    (ps_get_timer NTIMERS pool id cfg).2.2 = keystone_timer_reset ∧
    (ps_get_timer NTIMERS pool id cfg).1 ≠ none := by
  have hn : ¬ id ≥ NTIMERS := Nat.not_le.mpr h
  refine ⟨rfl, ?_, ?_, ?_⟩
  · intro hw
    simp [keystone_timer_reset, applyTrace, applyEv, setReg]
  · simp [ps_get_timer, hn]
  · simp [ps_get_timer, hn]

/-- Witness for `c7_reset_sequence` with `NTIMERS = 1`, `id = 0`: the
factory call issues exactly the reset trace. -/
theorem c7_reset_sequence_witness :
    (0 : Nat) < 1 ∧
    (ps_get_timer 1 (fun _ => none) 0 ⟨0, 7⟩).2.2 = keystone_timer_reset :=
  ⟨by decide,
   (c7_reset_sequence 1 (fun _ => none) 0 ⟨0, 7⟩ (by decide)).2.2.1⟩

/-- C8: for every register-map state and every `irq` argument,
`keystone_handle_irq` issues exactly one write, carrying the acknowledge
pattern, to the interrupt control/status register; and under the
spec-modelled write-one-to-clear read-back semantics of that register, the
pending status bits then read back as cleared. -/
theorem c8_handle_irq_acks (hw : TimerMap) (irq : Nat) :
    keystone_handle_irq hw irq =
      [Ev.write Reg.intctlstat INTCTLSTAT_ACK_MASK] ∧
    pendingBits (intctlstatReadback hw.intctlstat INTCTLSTAT_ACK_MASK) = 0 := by
  refine ⟨rfl, ?_⟩
  unfold pendingBits intctlstatReadback
  rw [Nat.and_assoc]
  have h0 :
      not32 (INTCTLSTAT_ACK_MASK &&& INTCTLSTAT_ACK_MASK) &&&
        INTCTLSTAT_ACK_MASK = 0 := by decide
  rw [h0, Nat.and_zero]

/-- C9: `keystone_get_nth_irq` returns the interrupt line stored in the
instance for every `n` (the argument is ignored, so any two values of `n`
give the same result), and for every in-range id the instance produced by
`ps_get_timer` has the configuration's interrupt line bound, so the lookup
returns it. -/
theorem c9_get_nth_irq_ignores_n (kt : KTimer) (n m : Nat) :
    keystone_get_nth_irq kt n = kt.irq ∧
    keystone_get_nth_irq kt n = keystone_get_nth_irq kt m ∧
    (∀ NTIMERS pool id cfg, id < NTIMERS →
      ((ps_get_timer NTIMERS pool id cfg).1).map
          (fun t => keystone_get_nth_irq t.kt n) = some cfg.irq) := by
  refine ⟨rfl, rfl, ?_⟩
  intro NTIMERS pool id cfg h
  have hn : ¬ id ≥ NTIMERS := Nat.not_le.mpr h
  simp [ps_get_timer, hn, keystone_get_nth_irq]

/-- Witness for `c9_get_nth_irq_ignores_n`: a timer fetched with interrupt
line 7 reports line 7 through `get_nth_irq` even at the out-of-range
argument `n = 5`. -/
theorem c9_get_nth_irq_ignores_n_witness :
    (0 : Nat) < 1 ∧
    ((ps_get_timer 1 (fun _ => none) 0 ⟨0, 7⟩).1).map
        (fun t => keystone_get_nth_irq t.kt 5) = some 7 :=
  ⟨by decide,
   (c9_get_nth_irq_ignores_n ⟨0, 0⟩ 5 0).2.2 1 (fun _ => none) 0 ⟨0, 7⟩
     (by decide)⟩

/-- C10: in every successful `keystone_set_timeo` call the value written to
the period-high register is 0 and the value written to the period-low
register is the full converted tick count, which is always below `2^32`
because the conversion macro truncates to `uint32_t` before the split; the
programmed period therefore never exceeds `2^32 - 1` ticks. -/
theorem c10_prdhi_always_zero (hw : TimerMap) (ns flags : Nat)
    (h : 2 ≤ TIMER_INTERVAL_TICKS ns) :
    (keystone_set_timeo hw ns flags).2[5]? =
      some (Ev.write Reg.prdhi 0) ∧
    (keystone_set_timeo hw ns flags).2[4]? =
      some (Ev.write Reg.prdlo (TIMER_INTERVAL_TICKS ns)) ∧
    TIMER_INTERVAL_TICKS ns ≤ 2 ^ 32 - 1 := by
  have hn : ¬ TIMER_INTERVAL_TICKS ns < 2 := Nat.not_lt.mpr h
  have hlt : TIMER_INTERVAL_TICKS ns < 2 ^ 32 := by
    unfold TIMER_INTERVAL_TICKS U32
    exact Nat.mod_lt _ (by norm_num)
  have hshift : TIMER_INTERVAL_TICKS ns >>> 32 = 0 := by
    rw [Nat.shiftRight_eq_div_pow]
    exact Nat.div_eq_of_lt hlt
  have hand :
      TIMER_INTERVAL_TICKS ns &&& 0xffffffff = TIMER_INTERVAL_TICKS ns := by
    have he : (0xffffffff : Nat) = 2 ^ 32 - 1 := by norm_num
    rw [he, Nat.and_pow_two_sub_one_eq_mod, Nat.mod_eq_of_lt hlt]
  refine ⟨?_, ?_, by omega⟩ <;> simp [keystone_set_timeo, hn, hshift, hand]

/-- Witness for `c10_prdhi_always_zero` at `ns = 10` (2 ticks): the
period-high write carries 0. -/
theorem c10_prdhi_always_zero_witness :
    2 ≤ TIMER_INTERVAL_TICKS 10 ∧
    (keystone_set_timeo (mapWithTcr 0) 10 TCR_ENAMODE_PERIODIC_MASK).2[5]? =
      some (Ev.write Reg.prdhi 0) :=
  ⟨by decide,
   (c10_prdhi_always_zero (mapWithTcr 0) 10 TCR_ENAMODE_PERIODIC_MASK
      (by decide)).1⟩

end Keystone
